import Mathlib

/-!
Verification development for the phone-intake service in `src/app.py`.

The Python source is shallowly embedded here:

* Python/JSON dynamic values are modelled by the inductive type `JVal`
  (JSON numbers are modelled as integers; fractional and exponent literals,
  and non-ASCII case folding, are outside the model, which treats Python
  strings as Lean `String`s of their code points).
* `json.loads` is modelled by the executable fuel-based parser `json_loads`.
* The network is abstracted: the behaviour of the single outbound classifier
  call of `openai_extract` is a `ClassifierResult` parameter (either a
  transport-level failure — connection error, timeout, non-2xx status,
  missing envelope fields — or the delivered message content string).
  Exceptions raised and caught inside the Python function are modelled by
  the corresponding fallback value being returned; the embedded functions
  are total.
* Each Flask handler is a pure function from its request values
  (`Option String`, `none` for an absent form value) to the list of TwiML
  verbs its XML response contains, plus the lead payload it hands to
  `post_lead`, when any.
-/

/-- Dynamic JSON/Python values as relevant to `app.py` (numbers as integers). -/
inductive JVal where
  | null
  | bool (b : Bool)
  | num (n : Int)
  | str (s : String)
  | arr (elems : List JVal)
  | obj (fields : List (String × JVal))

/-- Python truthiness (`bool(v)`) of a `JVal`. -/
def jTruthy : JVal → Bool
  | JVal.null => false
  | JVal.bool b => b
  | JVal.num n => n != 0
  | JVal.str s => s != ""
  | JVal.arr xs => !xs.isEmpty
  | JVal.obj kvs => !kvs.isEmpty

/-- Python truthiness of an optional value: `bool(None) = False`. -/
def pyTruthy : Option JVal → Bool
  | none => false
  | some v => jTruthy v

/-- Python `dict.get`: the stored value for a key. Later bindings overwrite
earlier ones, as when `json.loads` builds a dict with duplicate keys. -/
def dictGet (kvs : List (String × JVal)) (k : String) : Option JVal :=
  kvs.foldl (fun acc kv => if kv.1 = k then some kv.2 else acc) none

/-- Python `x or y` where `x` is `dict.get(...)` (possibly `None`) and `y` a
string: the left value when truthy, else the string `y`. -/
def pyOrStr (x : Option JVal) (y : String) : JVal :=
  match x with
  | some v => if jTruthy v then v else JVal.str y
  | none => JVal.str y

/-- Python whitespace for `str.strip()` (ASCII whitespace model: space, tab,
newline, carriage return, vertical tab, form feed). -/
def isPyWs (c : Char) : Bool :=
  c = ' ' ∨ c = Char.ofNat 9 ∨ c = Char.ofNat 10 ∨ c = Char.ofNat 13 ∨
    c = Char.ofNat 11 ∨ c = Char.ofNat 12

/-- Python `str.strip()`: drop leading and trailing whitespace. -/
def pyStrip (s : String) : String :=
  String.mk (((s.data.dropWhile isPyWs).reverse.dropWhile isPyWs).reverse)

/-- Python slicing `s[:n]` by code points. -/
def pyTake (n : Nat) (s : String) : String := String.mk (s.data.take n)

/-! JSON parsing, modelling `json.loads` (strict mode). -/

/-- Skip JSON insignificant whitespace. -/
def skipWs : List Char → List Char
  | [] => []
  | c :: cs =>
    if c = ' ' ∨ c = Char.ofNat 9 ∨ c = Char.ofNat 10 ∨ c = Char.ofNat 13 then skipWs cs
    else c :: cs

/-- Value of a hexadecimal digit. -/
def hexVal (c : Char) : Option Nat :=
  if '0' ≤ c ∧ c ≤ '9' then some (c.toNat - 48)
  else if 'a' ≤ c ∧ c ≤ 'f' then some (c.toNat - 87)
  else if 'A' ≤ c ∧ c ≤ 'F' then some (c.toNat - 55)
  else none

/-- Parse the body of a JSON string (after the opening quote), with escapes.
Surrogate-pair recombination is outside the model. -/
def parseJStr : Nat → List Char → List Char → Option (String × List Char)
  | 0, _, _ => none
  | Nat.succ fuel, cs, acc =>
    match cs with
    | [] => none
    | c :: rest =>
      if c = '"' then some (String.mk acc.reverse, rest)
      else if c = '\\' then
        match rest with
        | [] => none
        | e :: r2 =>
          if e = '"' then parseJStr fuel r2 ('"' :: acc)
          else if e = '\\' then parseJStr fuel r2 ('\\' :: acc)
          else if e = '/' then parseJStr fuel r2 ('/' :: acc)
          else if e = 'b' then parseJStr fuel r2 (Char.ofNat 8 :: acc)
          else if e = 'f' then parseJStr fuel r2 (Char.ofNat 12 :: acc)
          else if e = 'n' then parseJStr fuel r2 (Char.ofNat 10 :: acc)
          else if e = 'r' then parseJStr fuel r2 (Char.ofNat 13 :: acc)
          else if e = 't' then parseJStr fuel r2 (Char.ofNat 9 :: acc)
          else if e = 'u' then
            match r2 with
            | h1 :: h2 :: h3 :: h4 :: r3 =>
              match hexVal h1, hexVal h2, hexVal h3, hexVal h4 with
              | some a, some b, some c2, some d =>
                parseJStr fuel r3 (Char.ofNat (((a * 16 + b) * 16 + c2) * 16 + d) :: acc)
              | _, _, _, _ => none
            | _ => none
          else none
      else if c.toNat < 32 then none
      else parseJStr fuel rest (c :: acc)

/-- Accumulate a run of decimal digits. -/
def takeNum : List Char → Nat → Nat × List Char
  | [], acc => (acc, [])
  | c :: rest, acc =>
    if c.isDigit then takeNum rest (acc * 10 + (c.toNat - 48)) else (acc, c :: rest)

/-- Parse a JSON integer literal (fractions/exponents outside the model). -/
def parseNum (cs : List Char) : Option (JVal × List Char) :=
  match cs with
  | [] => none
  | '-' :: rest =>
    match rest with
    | [] => none
    | c :: _ =>
      if c.isDigit then
        let p := takeNum rest 0
        some (JVal.num (-(p.1 : Int)), p.2)
      else none
  | c :: _ =>
    if c.isDigit then
      let p := takeNum cs 0
      some (JVal.num (p.1 : Int), p.2)
    else none

mutual

/-- Parse one JSON value; returns the value and the unconsumed remainder. -/
def parseValue : Nat → List Char → Option (JVal × List Char)
  | 0, _ => none
  | Nat.succ fuel, cs =>
    match skipWs cs with
    | [] => none
    | c :: rest =>
      if c = 'n' then
        if rest.take 3 = ['u', 'l', 'l'] then some (JVal.null, rest.drop 3) else none
      else if c = 't' then
        if rest.take 3 = ['r', 'u', 'e'] then some (JVal.bool true, rest.drop 3) else none
      else if c = 'f' then
        if rest.take 4 = ['a', 'l', 's', 'e'] then some (JVal.bool false, rest.drop 4) else none
      else if c = '"' then
        match parseJStr (rest.length + 1) rest [] with
        | some (s, r) => some (JVal.str s, r)
        | none => none
      else if c = '[' then
        match skipWs rest with
        | ']' :: r2 => some (JVal.arr [], r2)
        | r2 =>
          match parseElems fuel r2 with
          | some (xs, r3) => some (JVal.arr xs, r3)
          | none => none
      else if c = '{' then
        match skipWs rest with
        | '}' :: r2 => some (JVal.obj [], r2)
        | r2 =>
          match parseMembers fuel r2 with
          | some (kvs, r3) => some (JVal.obj kvs, r3)
          | none => none
      else parseNum (c :: rest)

/-- Parse the non-empty element list of a JSON array, consuming the closing bracket. -/
def parseElems : Nat → List Char → Option (List JVal × List Char)
  | 0, _ => none
  | Nat.succ fuel, cs =>
    match parseValue fuel cs with
    | none => none
    | some (v, r) =>
      match skipWs r with
      | ',' :: r2 =>
        match parseElems fuel r2 with
        | some (xs, r3) => some (v :: xs, r3)
        | none => none
      | ']' :: r2 => some ([v], r2)
      | _ => none

/-- Parse the non-empty member list of a JSON object, consuming the closing brace. -/
def parseMembers : Nat → List Char → Option (List (String × JVal) × List Char)
  | 0, _ => none
  | Nat.succ fuel, cs =>
    match skipWs cs with
    | '"' :: r =>
      match parseJStr (r.length + 1) r [] with
      | none => none
      | some (k, r2) =>
        match skipWs r2 with
        | ':' :: r3 =>
          match parseValue fuel r3 with
          | none => none
          | some (v, r4) =>
            match skipWs r4 with
            | ',' :: r5 =>
              match parseMembers fuel r5 with
              | some (kvs, r6) => some ((k, v) :: kvs, r6)
              | none => none
            | '}' :: r5 => some ([(k, v)], r5)
            | _ => none
        | _ => none
    | _ => none

end

/-- Model of `json.loads`: parse a complete JSON document, rejecting
trailing content; `none` models a raised `JSONDecodeError`. -/
def json_loads (s : String) : Option JVal :=
  match parseValue (2 * s.length + 4) s.data with
  | some (v, rest) =>
    match skipWs rest with
    | [] => some v
    | _ => none
  | none => none

/-! The `{...}` rescue regex of `openai_extract`. -/

/-- Index of the first occurrence of a character. -/
def firstIdx (c : Char) : List Char → Option Nat
  | [] => none
  | x :: xs => if x = c then some 0 else (firstIdx c xs).map (· + 1)

/-- Index of the last occurrence of a character. -/
def lastIdx (c : Char) (cs : List Char) : Option Nat :=
  (firstIdx c cs.reverse).map (fun k => cs.length - 1 - k)

/-- Model of `re.search(r"\{.*\}", text, re.S)`: with the greedy `.*` and
DOTALL flag this matches from the first opening brace to the last closing
brace, provided the latter lies strictly after the former. -/
def braceSub (s : String) : Option String :=
  match firstIdx '{' s.data, lastIdx '}' s.data with
  | some i, some j => if i < j then some (String.mk ((s.data.drop i).take (j - i + 1))) else none
  | _, _ => none

/-! The urgency heuristic of `heuristic_extract`. -/

/-- The alternatives of the urgency trigger regex in `heuristic_extract`. -/
def triggerPhrases : List String :=
  ["flood", "flooding", "burst", "gushing", "overflow", "standing water",
   "water is everywhere", "still leaking", "ceiling leak"]

/-- Regex word character `\w` (ASCII model). -/
def isWordChar (c : Char) : Bool := c.isAlphanum || c = '_'

/-- Does phrase `p` occur in `t` at index `i` with a `\b` boundary on each
side?  (Each trigger phrase begins and ends with a letter, so `\b` demands
a non-word character or the string edge.) -/
def wordMatchAt (t p : List Char) (i : Nat) : Bool :=
  ((t.drop i).take p.length == p)
  && (decide (i = 0) || !isWordChar (t.getD (i - 1) ' '))
  && (decide (i + p.length = t.length) || !isWordChar (t.getD (i + p.length) ' '))

/-- Does `re.search` find phrase `p` with word boundaries anywhere in `t`? -/
def regexWordHit (t p : List Char) : Bool :=
  (List.range (t.length + 1)).any (fun i => wordMatchAt t p i)

/-- The urgency flag of `heuristic_extract`: the case-insensitive,
word-boundary-delimited trigger search (ASCII case folding model). -/
def urgentHeuristic (transcript : String) : Bool :=
  let lc := transcript.data.map Char.toLower
  triggerPhrases.any (fun p => regexWordHit lc p.data)

/-- `heuristic_extract` from `app.py`: the local fallback extraction dict. -/
def heuristic_extract (transcript : String) : JVal :=
  JVal.obj
    [("urgent", JVal.bool (urgentHeuristic transcript)),
     ("name", JVal.str ""),
     ("callback_phone", JVal.str ""),
     ("address", JVal.str ""),
     ("issue", JVal.str (pyTake 400 transcript)),
     ("summary", JVal.str (pyTake 220 transcript))]

/-! Configuration and the extraction gateway. -/

/-- The environment configuration read at module load (values already
`.strip()`-ed, as in the source). -/
structure AppConfig where
  openai_api_key : String
  forward_number : String
  lead_webhook_url : String
  site_city : String
  site_niche : String

/-- Behaviour of the outbound classifier HTTP call: either a failure anywhere
up to reading the message content (connection error, timeout, non-2xx status
via `raise_for_status`, missing envelope fields — each raises and is caught),
or the message content string that was delivered. -/
inductive ClassifierResult where
  | transportError
  | content (raw : String)

/-- `openai_extract` from `app.py`.  Every exception inside the Python body
is caught by its handlers; the embedding is the total function those
handlers produce. -/
def openai_extract (cfg : AppConfig) (net : ClassifierResult) (transcript : String) : JVal :=
  if cfg.openai_api_key = "" then heuristic_extract transcript
  else
    match net with
    | ClassifierResult.transportError => heuristic_extract transcript
    | ClassifierResult.content raw =>
      let text := pyStrip raw
      match json_loads text with
      | some v => v
      | none =>
        match braceSub text with
        | some sub =>
          match json_loads sub with
          | some v => v
          | none => heuristic_extract transcript
        | none => heuristic_extract transcript

/-! XML escaping (`escape_xml`) and the transport-side entity decoding. -/

/-- The apostrophe character. -/
def apos : Char := Char.ofNat 39

/-- Replacement text of the ampersand: the characters of the string between
quotes in `.replace("&", "&amp;")`. -/
def ampRep : List Char := ['&', 'a', 'm', 'p', ';']

/-- Replacement text for the less-than sign. -/
def ltRep : List Char := ['&', 'l', 't', ';']

/-- Replacement text for the greater-than sign. -/
def gtRep : List Char := ['&', 'g', 't', ';']

/-- Replacement text for the double quote. -/
def quotRep : List Char := ['&', 'q', 'u', 'o', 't', ';']

/-- Replacement text for the apostrophe. -/
def aposRep : List Char := ['&', 'a', 'p', 'o', 's', ';']

/-- Python `str.replace` for a single-character pattern: replace every
occurrence of `c` by `rep`. -/
def replace1 (c : Char) (rep : List Char) : List Char → List Char
  | [] => []
  | x :: xs => (if x = c then rep else [x]) ++ replace1 c rep xs

/-- The five chained `.replace` calls of `escape_xml`, in source order
(ampersand first). -/
def escapeChars (cs : List Char) : List Char :=
  replace1 apos aposRep
    (replace1 '"' quotRep
      (replace1 '>' gtRep
        (replace1 '<' ltRep
          (replace1 '&' ampRep cs))))

/-- `escape_xml` from `app.py`; `none` models a `None` argument. -/
def escape_xml (s : Option String) : String :=
  match s with
  | none => ""
  | some s => String.mk (escapeChars s.data)

/-- Modelled from the spec: the telephony transport's standard XML entity
decoding, the inverse transform of §4.1/§8 applied when the markup carrier
is parsed on the next turn.  It is not part of `src/`; a single left-to-right
pass replaces each of the five named entities by its character. -/
def unescapeChars : List Char → List Char
  | [] => []
  | '&' :: 'a' :: 'm' :: 'p' :: ';' :: r => '&' :: unescapeChars r
  | '&' :: 'l' :: 't' :: ';' :: r => '<' :: unescapeChars r
  | '&' :: 'g' :: 't' :: ';' :: r => '>' :: unescapeChars r
  | '&' :: 'q' :: 'u' :: 'o' :: 't' :: ';' :: r => '"' :: unescapeChars r
  | '&' :: 'a' :: 'p' :: 'o' :: 's' :: ';' :: r => apos :: unescapeChars r
  | c :: rest => c :: unescapeChars rest

/-- Modelled from the spec: XML entity decoding on `String`s. -/
def xml_unescape (s : String) : String := String.mk (unescapeChars s.data)

/-- A character list is safely embeddable in XML text or a quoted attribute:
it contains no raw `< > "` or apostrophe, and every ampersand begins one
of the five named entities. -/
def wellEscaped : List Char → Bool
  | [] => true
  | '&' :: 'l' :: 't' :: ';' :: r => wellEscaped r
  | '&' :: 'g' :: 't' :: ';' :: r => wellEscaped r
  | '&' :: 'q' :: 'u' :: 'o' :: 't' :: ';' :: r => wellEscaped r
  | '&' :: 'a' :: 'm' :: 'p' :: ';' :: r => wellEscaped r
  | '&' :: 'a' :: 'p' :: 'o' :: 's' :: ';' :: r => wellEscaped r
  | c :: rest =>
    if c = '&' ∨ c = '<' ∨ c = '>' ∨ c = '"' ∨ c = apos then false
    else wellEscaped rest

/-- What `escape_xml` emits for one input character. -/
def encChar (x : Char) : List Char :=
  if x = '&' then ampRep
  else if x = '<' then ltRep
  else if x = '>' then gtRep
  else if x = '"' then quotRep
  else if x = apos then aposRep
  else [x]

/-! The TwiML responses of the four routes, as verb lists. -/

/-- One TwiML verb of the responses built in `app.py`; `gather` carries the
action URL and its `<Parameter>` name/value pairs. -/
inductive Verb where
  | say (text : String)
  | gather (action : String) (params : List (String × String)) (inner : List Verb)
  | dial (number : String)
  | hangup
  | redirect (target : String)

/-- Number of `<Dial>` verbs at the top level of a response. -/
def countDial : List Verb → Nat
  | [] => 0
  | Verb.dial _ :: rest => countDial rest + 1
  | _ :: rest => countDial rest

/-- Number of `<Hangup/>` verbs at the top level of a response. -/
def countHangup : List Verb → Nat
  | [] => 0
  | Verb.hangup :: rest => countHangup rest + 1
  | _ :: rest => countHangup rest

/-- Number of `<Redirect>` verbs at the top level of a response. -/
def countRedirect : List Verb → Nat
  | [] => 0
  | Verb.redirect _ :: rest => countRedirect rest + 1
  | _ :: rest => countRedirect rest

/-- Number of `<Gather>` verbs at the top level of a response. -/
def countGather : List Verb → Nat
  | [] => 0
  | Verb.gather _ _ _ :: rest => countGather rest + 1
  | _ :: rest => countGather rest

/-- `(request.values.get(k) or "").strip()`. -/
def stripOpt (v : Option String) : String := pyStrip (v.getD "")

/-- `post_lead` from `app.py`: `delivered` abstracts whether the webhook POST
returned a 2xx status (a raised exception gives `false`). -/
def post_lead (cfg : AppConfig) (delivered : Bool) : Bool :=
  if cfg.lead_webhook_url = "" then false else delivered

/-- The transcript string assembled in `voice_finalize`. -/
def finalTranscript (name callback issue from_number call_sid : String) : String :=
  "CallerName: " ++ name ++ "\n" ++
  "Callback: " ++ callback ++ "\n" ++
  "Issue: " ++ issue ++ "\n" ++
  "From: " ++ from_number ++ "\n" ++
  "CallSid: " ++ call_sid

/-- The lead JSON of `voice_finalize` (`int(time.time())` is the parameter
`now`; `email` is always `None`). -/
structure LeadPayload where
  ts : Int
  niche : String
  city : String
  name : JVal
  phone : JVal
  email : JVal
  address : JVal
  message : JVal
  summary : JVal
  urgent : Bool
  callSid : String
  fromNumber : String
  source : String

/-- The `lead_payload` dict built in `voice_finalize` from the extraction
dict `kvs` and the raw collected values. -/
def mkLead (cfg : AppConfig) (now : Int) (kvs : List (String × JVal))
    (name callback issue call_sid from_number : String) : LeadPayload :=
  { ts := now
    niche := cfg.site_niche
    city := cfg.site_city
    name := pyOrStr (dictGet kvs "name") name
    phone := pyOrStr (dictGet kvs "callback_phone")
      (if callback = "" then from_number else callback)
    email := JVal.null
    address := pyOrStr (dictGet kvs "address") ""
    message := pyOrStr (dictGet kvs "issue") issue
    summary := pyOrStr (dictGet kvs "summary") ""
    urgent := pyTruthy (dictGet kvs "urgent")
    callSid := call_sid
    fromNumber := from_number
    source := "phone-ai" }

/-- The urgent-branch TwiML of `voice_finalize`: acknowledgment, bridge,
spoken fallback. -/
def urgentVerbs (cfg : AppConfig) : List Verb :=
  [Verb.say "Okay. This sounds urgent. I\x27m connecting you now.",
   Verb.dial (escape_xml (some cfg.forward_number)),
   Verb.say "If the line is busy, a team member will call you back shortly."]

/-- The non-urgent-branch TwiML of `voice_finalize`: callback promise, hangup. -/
def promiseVerbs : List Verb :=
  [Verb.say "Thank you. A local team will call you back shortly.",
   Verb.hangup]

/-- The `/voice` entry-point response. -/
def voice_entry : List Verb :=
  [Verb.say "Thanks for calling. This call may be recorded to help route your request.",
   Verb.say "In one sentence, tell me what happened with the water damage.",
   Verb.gather "/voice/issue" [] [Verb.say "Go ahead."],
   Verb.say "Sorry, I didn\x27t catch that.",
   Verb.redirect "/voice"]

/-- The `/voice/issue` handler: lead posted (always none here) and response. -/
def voice_issue (speechV : Option String) : Option LeadPayload × List Verb :=
  let issue := stripOpt speechV
  if issue = "" then
    (none, [Verb.say "Sorry, I didn\x27t catch what happened.", Verb.redirect "/voice"])
  else
    (none,
     [Verb.say "Got it.",
      Verb.say "What is the best callback phone number?",
      Verb.gather "/voice/phone" [("issue", escape_xml (some issue))]
        [Verb.say "Say the phone number slowly."],
      Verb.say "Sorry, I didn\x27t catch the phone number.",
      Verb.redirect "/voice"])

/-- The `/voice/phone` handler. -/
def voice_phone (issueV speechV : Option String) : Option LeadPayload × List Verb :=
  let issue := stripOpt issueV
  let phone_spoken := stripOpt speechV
  if phone_spoken = "" then
    (none, [Verb.say "Sorry, I didn\x27t catch the callback number.", Verb.redirect "/voice"])
  else
    (none,
     [Verb.say "Thanks.",
      Verb.say "And what is your name?",
      Verb.gather "/voice/finalize"
        [("issue", escape_xml (some issue)), ("callback", escape_xml (some phone_spoken))]
        [Verb.say "Go ahead."],
      Verb.say "Sorry, I didn\x27t catch your name.",
      Verb.redirect "/voice"])

/-- The `/voice/finalize` handler.  The result is the lead payload passed to
`post_lead` together with the response verbs; `none` models the
`AttributeError` raised at `extracted.get` when the extraction returned a
non-dict value (the request then errors out with no TwiML response). -/
def voice_finalize (cfg : AppConfig) (net : ClassifierResult) (now : Int)
    (issueV callbackV speechV sidV fromV : Option String) :
    Option (LeadPayload × List Verb) :=
  let issue := stripOpt issueV
  let callback := stripOpt callbackV
  let name := stripOpt speechV
  let call_sid := sidV.getD ""
  let from_number := fromV.getD ""
  let transcript := finalTranscript name callback issue from_number call_sid
  match openai_extract cfg net transcript with
  | JVal.obj kvs =>
    let lead := mkLead cfg now kvs name callback issue call_sid from_number
    some (lead, if lead.urgent && cfg.forward_number != "" then urgentVerbs cfg else promiseVerbs)
  | _ => none

/-- Modelled from the wording of claim C2: plain case-insensitive substring
containment, with no word-boundary requirement. -/
def containsCI (t p : String) : Bool :=
  let lc := t.data.map Char.toLower
  (List.range (lc.length + 1)).any (fun i => (lc.drop i).take p.data.length == p.data)

/-- An extraction value is a dict carrying the six declared keys with their
declared types (`urgent` boolean, the other five strings). -/
def wellFormedExtracted : JVal → Bool
  | JVal.obj kvs =>
    (match dictGet kvs "urgent" with | some (JVal.bool _) => true | _ => false)
    && (match dictGet kvs "name" with | some (JVal.str _) => true | _ => false)
    && (match dictGet kvs "callback_phone" with | some (JVal.str _) => true | _ => false)
    && (match dictGet kvs "address" with | some (JVal.str _) => true | _ => false)
    && (match dictGet kvs "issue" with | some (JVal.str _) => true | _ => false)
    && (match dictGet kvs "summary" with | some (JVal.str _) => true | _ => false)
  | _ => false

/-- A concrete configuration: heuristic-only mode, forwarding number set. -/
def cfgFwd : AppConfig := AppConfig.mk "" "+15205551234" "" "Phoenix, AZ" "Water Damage"

/-- A concrete configuration: classifier credential set, forwarding number set. -/
def cfgKey : AppConfig := AppConfig.mk "sk-test" "+15205551234" "" "Phoenix, AZ" "Water Damage"

/-! Helper lemmas about `escape_xml` and the entity decoding. -/

theorem replace1_append (c : Char) (rep xs ys : List Char) :
    replace1 c rep (xs ++ ys) = replace1 c rep xs ++ replace1 c rep ys := by
  induction xs with
  | nil => rfl
  | cons a l ih => simp [replace1, ih]

theorem escapeChars_cons (x : Char) (cs : List Char) :
    escapeChars (x :: cs) = encChar x ++ escapeChars cs := by
  have h0 : replace1 '&' ampRep (x :: cs)
      = (if x = '&' then ampRep else [x]) ++ replace1 '&' ampRep cs := rfl
  have hhead : replace1 apos aposRep (replace1 '"' quotRep (replace1 '>' gtRep
      (replace1 '<' ltRep (if x = '&' then ampRep else [x])))) = encChar x := by
    by_cases h1 : x = '&'
    · subst h1; decide
    by_cases h2 : x = '<'
    · subst h2; decide
    by_cases h3 : x = '>'
    · subst h3; decide
    by_cases h4 : x = '"'
    · subst h4; decide
    by_cases h5 : x = apos
    · subst h5; decide
    · simp [replace1, encChar, h1, h2, h3, h4, h5]
  have htail : replace1 apos aposRep (replace1 '"' quotRep (replace1 '>' gtRep
      (replace1 '<' ltRep (replace1 '&' ampRep cs)))) = escapeChars cs := rfl
  show replace1 apos aposRep (replace1 '"' quotRep (replace1 '>' gtRep (replace1 '<' ltRep
      (replace1 '&' ampRep (x :: cs))))) = _
  rw [h0, replace1_append, replace1_append, replace1_append, replace1_append, hhead, htail]

set_option maxHeartbeats 2000000 in
theorem unescape_cons_ne (x : Char) (t : List Char) (hx : x ≠ '&') :
    unescapeChars (x :: t) = x :: unescapeChars t := by
  rw [unescapeChars.eq_def]
  split <;> simp_all

theorem unescape_encChar (x : Char) (t : List Char) :
    unescapeChars (encChar x ++ t) = x :: unescapeChars t := by
  by_cases h1 : x = '&'
  · subst h1; rfl
  by_cases h2 : x = '<'
  · subst h2; rfl
  by_cases h3 : x = '>'
  · subst h3; rfl
  by_cases h4 : x = '"'
  · subst h4; rfl
  by_cases h5 : x = apos
  · subst h5; rfl
  · rw [show encChar x = [x] from by simp [encChar, h1, h2, h3, h4, h5]]
    exact unescape_cons_ne x t h1

set_option maxHeartbeats 2000000 in
theorem wellEscaped_cons_ne (x : Char) (t : List Char)
    (h1 : x ≠ '&') (h2 : x ≠ '<') (h3 : x ≠ '>') (h4 : x ≠ '"') (h5 : x ≠ apos) :
    wellEscaped (x :: t) = wellEscaped t := by
  rw [wellEscaped.eq_def]
  split <;> simp_all

theorem wellEscaped_encChar (x : Char) (t : List Char) :
    wellEscaped (encChar x ++ t) = wellEscaped t := by
  by_cases h1 : x = '&'
  · subst h1; rfl
  by_cases h2 : x = '<'
  · subst h2; rfl
  by_cases h3 : x = '>'
  · subst h3; rfl
  by_cases h4 : x = '"'
  · subst h4; rfl
  by_cases h5 : x = apos
  · subst h5; rfl
  · rw [show encChar x = [x] from by simp [encChar, h1, h2, h3, h4, h5]]
    exact wellEscaped_cons_ne x t h1 h2 h3 h4 h5

theorem unescape_escape_list (cs : List Char) :
    unescapeChars (escapeChars cs) = cs := by
  induction cs with
  | nil => rfl
  | cons x l ih => rw [escapeChars_cons, unescape_encChar, ih]

theorem wellEscaped_escape_list (cs : List Char) :
    wellEscaped (escapeChars cs) = true := by
  induction cs with
  | nil => rfl
  | cons x l ih => rw [escapeChars_cons, wellEscaped_encChar, ih]

theorem xml_unescape_escape (s : String) : xml_unescape (escape_xml (some s)) = s := by
  obtain ⟨data⟩ := s
  show String.mk (unescapeChars (escapeChars data)) = String.mk data
  rw [unescape_escape_list]

theorem pyOrStr_str_cases (x : Option JVal) (p y : String)
    (hx : x = some (JVal.str p) ∨ (x = none ∧ p = "")) :
    pyOrStr x y = JVal.str (if p ≠ "" then p else y) := by
  rcases hx with rfl | ⟨rfl, rfl⟩
  · by_cases hp : p = "" <;> simp [pyOrStr, jTruthy, hp]
  · simp [pyOrStr]

/-! Claim theorems: the sanitizer (C6, C7). -/

/-- C6: the sanitizer is left-inverse-compatible: for every string `s`,
applying the standard XML entity decoding (the transport's inverse) to
`escape_xml s` recovers `s` exactly, so a field value survives one
encode/decode round trip unchanged. -/
theorem escape_xml_roundtrip (s : String) : xml_unescape (escape_xml (some s)) = s :=
  xml_unescape_escape s

/-- C7: the sanitizer is total including on `None` with `escape_xml None = ""`,
and for every string input the output has no unescaped XML metacharacter:
no raw `< > "` or apostrophe remains, and every remaining ampersand begins
one of the five named entities. -/
theorem escape_xml_total_safe :
    escape_xml none = "" ∧ ∀ s : String, wellEscaped (escape_xml (some s)).data = true := by
  refine ⟨rfl, fun s => ?_⟩
  obtain ⟨data⟩ := s
  show wellEscaped (escapeChars data) = true
  exact wellEscaped_escape_list data

/-! Claim theorems: the extraction gateway (C2, C3, C4). -/

/-- C2 counterexample: the claim says `urgent=true` iff the transcript
contains (case-insensitively) one of the trigger phrases; but the transcript
"flooded" contains the trigger "flood" as a substring while the
no-credential extraction returns `urgent=false`, because the source regex
demands `\b` word boundaries around the phrase. -/
theorem extract_substring_cex :
    containsCI "flooded" "flood" = true ∧
    openai_extract (AppConfig.mk "" "" "" "Phoenix, AZ" "Water Damage")
        ClassifierResult.transportError "flooded"
      = JVal.obj
          [("urgent", JVal.bool false), ("name", JVal.str ""),
           ("callback_phone", JVal.str ""), ("address", JVal.str ""),
           ("issue", JVal.str "flooded"), ("summary", JVal.str "flooded")] :=
  ⟨rfl, rfl⟩

/-- C2 (amended): with no classifier credential configured, `extract` is a
pure function of the transcript — its value is independent of the network
behaviour — and it returns the heuristic dict: `urgent` is the
word-boundary-delimited, case-insensitive trigger search, `summary` is the
first 220 characters, `issue` the first 400 characters, and the name,
callback_phone and address fields are the empty string. -/
theorem extract_heuristic_mode (cfg : AppConfig) (net net2 : ClassifierResult) (t : String)
    (h : cfg.openai_api_key = "") :
    openai_extract cfg net t = openai_extract cfg net2 t ∧
    openai_extract cfg net t = JVal.obj
      [("urgent", JVal.bool (urgentHeuristic t)),
       ("name", JVal.str ""), ("callback_phone", JVal.str ""), ("address", JVal.str ""),
       ("issue", JVal.str (pyTake 400 t)), ("summary", JVal.str (pyTake 220 t))] := by
  constructor
  · simp [openai_extract, h]
  · simp [openai_extract, h, heuristic_extract]

/-- C2 witness: the amended theorem applied at a concrete urgent transcript. -/
theorem extract_heuristic_mode_witness :
    (AppConfig.mk "" "" "" "Phoenix, AZ" "Water Damage").openai_api_key = "" ∧
    openai_extract (AppConfig.mk "" "" "" "Phoenix, AZ" "Water Damage")
        ClassifierResult.transportError "pipe burst here"
      = JVal.obj
          [("urgent", JVal.bool (urgentHeuristic "pipe burst here")),
           ("name", JVal.str ""), ("callback_phone", JVal.str ""), ("address", JVal.str ""),
           ("issue", JVal.str (pyTake 400 "pipe burst here")),
           ("summary", JVal.str (pyTake 220 "pipe burst here"))] :=
  ⟨rfl,
   (extract_heuristic_mode (AppConfig.mk "" "" "" "Phoenix, AZ" "Water Damage")
     ClassifierResult.transportError (ClassifierResult.content "x") "pipe burst here" rfl).2⟩

/-- C3: `extract` is total — modelled as a total function whose failure
branches return values rather than raising — and for every transcript and
every classifier behaviour that fails (transport error, non-success status
or timeout, or content on which both the strict JSON parse and the
brace-substring parse fail) it returns the heuristic result computed from
the same transcript. -/
theorem extract_total_fallback (cfg : AppConfig) (t : String) (net : ClassifierResult)
    (h : net = ClassifierResult.transportError ∨
      ∃ text, net = ClassifierResult.content text ∧
        json_loads (pyStrip text) = none ∧
        ∀ sub, braceSub (pyStrip text) = some sub → json_loads sub = none) :
    openai_extract cfg net t = heuristic_extract t := by
  rcases h with h | ⟨text, rfl, hj, hsub⟩
  · subst h
    by_cases hk : cfg.openai_api_key = "" <;> simp [openai_extract, hk]
  · by_cases hk : cfg.openai_api_key = ""
    · simp [openai_extract, hk]
    · cases hb : braceSub (pyStrip text) with
      | none => simp [openai_extract, hk, hj, hb]
      | some sub => simp [openai_extract, hk, hj, hb, hsub sub hb]

/-- C3 witness: a configured classifier that answers unparseable content
falls back to the heuristic of the transcript. -/
theorem extract_total_fallback_witness :
    (ClassifierResult.content "oops" = ClassifierResult.transportError ∨
      ∃ text, ClassifierResult.content "oops" = ClassifierResult.content text ∧
        json_loads (pyStrip text) = none ∧
        ∀ sub, braceSub (pyStrip text) = some sub → json_loads sub = none) ∧
    openai_extract (AppConfig.mk "sk-x" "" "" "c" "n") (ClassifierResult.content "oops") "hi burst hi"
      = heuristic_extract "hi burst hi" := by
  have hnb : ∀ sub : String, braceSub (pyStrip "oops") = some sub → json_loads sub = none := by
    intro sub hs
    rw [show braceSub (pyStrip "oops") = (none : Option String) from rfl] at hs
    cases hs
  exact ⟨Or.inr ⟨"oops", rfl, rfl, hnb⟩,
    extract_total_fallback (AppConfig.mk "sk-x" "" "" "c" "n") "hi burst hi"
      (ClassifierResult.content "oops") (Or.inr ⟨"oops", rfl, rfl, hnb⟩)⟩

/-- C4 counterexample: the claim says the extraction result is never null
and always carries the six typed keys; but with a credential configured,
classifier content "null" makes the strict parse succeed and `extract`
returns the JSON null (Python `None`), and content consisting of an empty
JSON object returns a dict with none of the six keys. -/
theorem extract_shape_cex :
    openai_extract (AppConfig.mk "sk-x" "" "" "c" "n") (ClassifierResult.content "null") "t"
      = JVal.null ∧
    openai_extract (AppConfig.mk "sk-x" "" "" "c" "n") (ClassifierResult.content "\x7b\x7d") "t"
      = JVal.obj [] ∧
    dictGet [] "urgent" = none ∧
    wellFormedExtracted JVal.null = false ∧
    wellFormedExtracted (JVal.obj []) = false :=
  ⟨rfl, rfl, rfl, rfl, rfl⟩

/-- C4 (amended): every heuristic-path result carries the six declared keys
with their declared types, and `extract` either returns that heuristic
result (no credential, transport failure, or both parses failing) or
returns verbatim the JSON value some parse succeeded on — which may be
null, a non-object, or an object missing keys, with no defaulting applied. -/
theorem extract_shape (cfg : AppConfig) (net : ClassifierResult) (t : String) :
    wellFormedExtracted (heuristic_extract t) = true ∧
    (openai_extract cfg net t = heuristic_extract t ∨
      ∃ text v, net = ClassifierResult.content text ∧
        (json_loads (pyStrip text) = some v ∨
          (json_loads (pyStrip text) = none ∧
            ∃ sub, braceSub (pyStrip text) = some sub ∧ json_loads sub = some v)) ∧
        openai_extract cfg net t = v) := by
  refine ⟨rfl, ?_⟩
  by_cases hk : cfg.openai_api_key = ""
  · left; simp [openai_extract, hk]
  · cases net with
    | transportError => left; simp [openai_extract, hk]
    | content raw =>
      cases hj : json_loads (pyStrip raw) with
      | some v =>
        right; exact ⟨raw, v, rfl, Or.inl hj, by simp [openai_extract, hk, hj]⟩
      | none =>
        cases hb : braceSub (pyStrip raw) with
        | none => left; simp [openai_extract, hk, hj, hb]
        | some sub =>
          cases hj2 : json_loads sub with
          | none => left; simp [openai_extract, hk, hj, hb, hj2]
          | some v =>
            right; exact ⟨raw, v, rfl, Or.inr ⟨hj, sub, hb, hj2⟩,
              by simp [openai_extract, hk, hj, hb, hj2]⟩

/-! Claim theorems: the call flow (C1, C5, C8, C9, C10). -/

/-- C5: on the two non-terminal collection turns, empty or missing
recognized speech makes the handler speak a "didn\x27t catch" prompt and
redirect to the `/voice` Greeting entry point, carrying no parameters
(the collected context is discarded), and no lead payload is produced. -/
theorem missing_input_restarts (issueV spV : Option String)
    (h : stripOpt spV = "") :
    voice_issue spV =
      (none, [Verb.say "Sorry, I didn\x27t catch what happened.", Verb.redirect "/voice"]) ∧
    voice_phone issueV spV =
      (none, [Verb.say "Sorry, I didn\x27t catch the callback number.", Verb.redirect "/voice"]) := by
  constructor
  · simp [voice_issue, h]
  · simp [voice_phone, h]

/-- C5 witness: whitespace-only speech on either collection turn restarts
the flow with no lead. -/
theorem missing_input_restarts_witness :
    stripOpt (some "   ") = "" ∧
    voice_issue (some "   ") =
      (none, [Verb.say "Sorry, I didn\x27t catch what happened.", Verb.redirect "/voice"]) ∧
    voice_phone (some "leak") (some "   ") =
      (none, [Verb.say "Sorry, I didn\x27t catch the callback number.", Verb.redirect "/voice"]) :=
  ⟨rfl, (missing_input_restarts (some "leak") (some "   ") rfl).1,
    (missing_input_restarts (some "leak") (some "   ") rfl).2⟩

/-- C1: on the terminal turn, whenever extraction returns a dict, exactly one
terminal directive is emitted: if the coerced urgent flag is true and the
forwarding number is configured non-empty, the response is the urgency
acknowledgment, then the bridge to the forwarding destination (whose dial
target decodes back to the configured number), then the spoken fallback
line; otherwise it is the callback-promise line followed by hangup.  Each
branch has exactly one of dial/hangup, never both, never neither. -/
theorem finalize_directive (cfg : AppConfig) (net : ClassifierResult) (now : Int)
    (issueV callbackV speechV sidV fromV : Option String) (kvs : List (String × JVal))
    (h : openai_extract cfg net
        (finalTranscript (stripOpt speechV) (stripOpt callbackV) (stripOpt issueV)
          (fromV.getD "") (sidV.getD "")) = JVal.obj kvs) :
    ∃ lead : LeadPayload,
      voice_finalize cfg net now issueV callbackV speechV sidV fromV =
        some (lead,
          if lead.urgent && cfg.forward_number != "" then urgentVerbs cfg else promiseVerbs) ∧
      lead.urgent = pyTruthy (dictGet kvs "urgent") ∧
      urgentVerbs cfg =
        [Verb.say "Okay. This sounds urgent. I\x27m connecting you now.",
         Verb.dial (escape_xml (some cfg.forward_number)),
         Verb.say "If the line is busy, a team member will call you back shortly."] ∧
      xml_unescape (escape_xml (some cfg.forward_number)) = cfg.forward_number ∧
      promiseVerbs =
        [Verb.say "Thank you. A local team will call you back shortly.", Verb.hangup] ∧
      countDial (urgentVerbs cfg) = 1 ∧ countHangup (urgentVerbs cfg) = 0 ∧
      countDial promiseVerbs = 0 ∧ countHangup promiseVerbs = 1 := by
  refine ⟨mkLead cfg now kvs (stripOpt speechV) (stripOpt callbackV) (stripOpt issueV)
      (sidV.getD "") (fromV.getD ""),
    ?_, rfl, rfl, xml_unescape_escape cfg.forward_number, rfl, rfl, rfl, rfl, rfl⟩
  simp only [voice_finalize]
  rw [h]

/-- C1 witness: urgent transcript, forwarding configured — the bridge branch. -/
theorem finalize_directive_witness :
    (openai_extract cfgFwd ClassifierResult.transportError
        (finalTranscript (stripOpt (none : Option String)) (stripOpt (none : Option String))
          (stripOpt (some "burst")) ((none : Option String).getD "") ((none : Option String).getD ""))
      = JVal.obj
          [("urgent", JVal.bool true), ("name", JVal.str ""),
           ("callback_phone", JVal.str ""), ("address", JVal.str ""),
           ("issue", JVal.str "CallerName: \nCallback: \nIssue: burst\nFrom: \nCallSid: "),
           ("summary", JVal.str "CallerName: \nCallback: \nIssue: burst\nFrom: \nCallSid: ")]) ∧
    (∃ lead : LeadPayload,
      voice_finalize cfgFwd ClassifierResult.transportError 0 (some "burst") none none none none =
        some (lead,
          if lead.urgent && cfgFwd.forward_number != "" then urgentVerbs cfgFwd else promiseVerbs) ∧
      lead.urgent = pyTruthy (dictGet
        [("urgent", JVal.bool true), ("name", JVal.str ""),
         ("callback_phone", JVal.str ""), ("address", JVal.str ""),
         ("issue", JVal.str "CallerName: \nCallback: \nIssue: burst\nFrom: \nCallSid: "),
         ("summary", JVal.str "CallerName: \nCallback: \nIssue: burst\nFrom: \nCallSid: ")] "urgent") ∧
      urgentVerbs cfgFwd =
        [Verb.say "Okay. This sounds urgent. I\x27m connecting you now.",
         Verb.dial (escape_xml (some cfgFwd.forward_number)),
         Verb.say "If the line is busy, a team member will call you back shortly."] ∧
      xml_unescape (escape_xml (some cfgFwd.forward_number)) = cfgFwd.forward_number ∧
      promiseVerbs =
        [Verb.say "Thank you. A local team will call you back shortly.", Verb.hangup] ∧
      countDial (urgentVerbs cfgFwd) = 1 ∧ countHangup (urgentVerbs cfgFwd) = 0 ∧
      countDial promiseVerbs = 0 ∧ countHangup promiseVerbs = 1) :=
  ⟨rfl, finalize_directive cfgFwd ClassifierResult.transportError 0 (some "burst") none none none none
    [("urgent", JVal.bool true), ("name", JVal.str ""),
     ("callback_phone", JVal.str ""), ("address", JVal.str ""),
     ("issue", JVal.str "CallerName: \nCallback: \nIssue: burst\nFrom: \nCallSid: "),
     ("summary", JVal.str "CallerName: \nCallback: \nIssue: burst\nFrom: \nCallSid: ")] rfl⟩

/-- C9: the routing urgent flag is the Python truthiness of the extracted
value under "urgent": for every extraction dict, the lead stores
`bool(extracted.get("urgent"))`, the bridge is chosen exactly when that
coerced boolean holds together with a configured forwarding number, and the
coercion treats any truthy value (the non-empty string "false", a non-zero
number, a non-empty list) as urgent while a missing key, False, 0, the
empty string or None are non-urgent. -/
theorem finalize_urgent_truthiness (cfg : AppConfig) (net : ClassifierResult) (now : Int)
    (issueV callbackV speechV sidV fromV : Option String) (kvs : List (String × JVal))
    (h : openai_extract cfg net
        (finalTranscript (stripOpt speechV) (stripOpt callbackV) (stripOpt issueV)
          (fromV.getD "") (sidV.getD "")) = JVal.obj kvs) :
    (∃ lead vs, voice_finalize cfg net now issueV callbackV speechV sidV fromV = some (lead, vs) ∧
      lead.urgent = pyTruthy (dictGet kvs "urgent") ∧
      (countDial vs = 1 ↔ (pyTruthy (dictGet kvs "urgent") && cfg.forward_number != "") = true)) ∧
    pyTruthy (some (JVal.str "false")) = true ∧
    pyTruthy (some (JVal.num 2)) = true ∧
    pyTruthy (some (JVal.arr [JVal.null])) = true ∧
    pyTruthy none = false ∧
    pyTruthy (some (JVal.bool false)) = false ∧
    pyTruthy (some (JVal.num 0)) = false ∧
    pyTruthy (some (JVal.str "")) = false ∧
    pyTruthy (some JVal.null) = false := by
  refine ⟨⟨mkLead cfg now kvs (stripOpt speechV) (stripOpt callbackV) (stripOpt issueV)
      (sidV.getD "") (fromV.getD ""),
    (if pyTruthy (dictGet kvs "urgent") && cfg.forward_number != "" then
      urgentVerbs cfg else promiseVerbs), ?_, rfl, ?_⟩, rfl, rfl, rfl, rfl, rfl, rfl, rfl, rfl⟩
  · simp only [voice_finalize]
    rw [h]
    rfl
  · by_cases hb : (pyTruthy (dictGet kvs "urgent") && cfg.forward_number != "") = true
    · simp [hb, urgentVerbs, countDial]
    · simp [hb, promiseVerbs, countDial]

/-- C9 witness: a classifier reply binding "urgent" to the string "false"
is coerced to urgent-true and selects the bridge branch. -/
theorem finalize_urgent_truthiness_witness :
    (openai_extract cfgKey (ClassifierResult.content "\x7b\x22urgent\x22: \x22false\x22\x7d")
        (finalTranscript (stripOpt (none : Option String)) (stripOpt (none : Option String))
          (stripOpt (none : Option String)) ((none : Option String).getD "")
          ((none : Option String).getD ""))
      = JVal.obj [("urgent", JVal.str "false")]) ∧
    ((∃ lead vs,
      voice_finalize cfgKey (ClassifierResult.content "\x7b\x22urgent\x22: \x22false\x22\x7d")
          0 none none none none none = some (lead, vs) ∧
      lead.urgent = pyTruthy (dictGet [("urgent", JVal.str "false")] "urgent") ∧
      (countDial vs = 1 ↔
        (pyTruthy (dictGet [("urgent", JVal.str "false")] "urgent") &&
          cfgKey.forward_number != "") = true)) ∧
    pyTruthy (some (JVal.str "false")) = true ∧
    pyTruthy (some (JVal.num 2)) = true ∧
    pyTruthy (some (JVal.arr [JVal.null])) = true ∧
    pyTruthy none = false ∧
    pyTruthy (some (JVal.bool false)) = false ∧
    pyTruthy (some (JVal.num 0)) = false ∧
    pyTruthy (some (JVal.str "")) = false ∧
    pyTruthy (some JVal.null) = false) :=
  ⟨rfl, finalize_urgent_truthiness cfgKey
    (ClassifierResult.content "\x7b\x22urgent\x22: \x22false\x22\x7d") 0 none none none none none
    [("urgent", JVal.str "false")] rfl⟩

/-- C8: per-attribute precedence in the lead record. When the extracted
"callback_phone", "name" and "issue" values are strings (or the key is
absent, counting as empty), the lead phone equals the extracted
callback_phone when non-empty, else the raw collected callback when
non-empty, else the caller number From; name and message likewise prefer
the extracted value when non-empty, else the raw collected value. -/
theorem lead_field_precedence (cfg : AppConfig) (net : ClassifierResult) (now : Int)
    (issueV callbackV speechV sidV fromV : Option String) (kvs : List (String × JVal))
    (p nx ix : String)
    (h : openai_extract cfg net
        (finalTranscript (stripOpt speechV) (stripOpt callbackV) (stripOpt issueV)
          (fromV.getD "") (sidV.getD "")) = JVal.obj kvs)
    (hp : dictGet kvs "callback_phone" = some (JVal.str p) ∨
      (dictGet kvs "callback_phone" = none ∧ p = ""))
    (hn : dictGet kvs "name" = some (JVal.str nx) ∨
      (dictGet kvs "name" = none ∧ nx = ""))
    (hi : dictGet kvs "issue" = some (JVal.str ix) ∨
      (dictGet kvs "issue" = none ∧ ix = "")) :
    ∃ lead vs, voice_finalize cfg net now issueV callbackV speechV sidV fromV = some (lead, vs) ∧
      lead.phone = JVal.str (if p ≠ "" then p
        else if stripOpt callbackV ≠ "" then stripOpt callbackV else fromV.getD "") ∧
      lead.name = JVal.str (if nx ≠ "" then nx else stripOpt speechV) ∧
      lead.message = JVal.str (if ix ≠ "" then ix else stripOpt issueV) := by
  refine ⟨mkLead cfg now kvs (stripOpt speechV) (stripOpt callbackV) (stripOpt issueV)
      (sidV.getD "") (fromV.getD ""),
    (if pyTruthy (dictGet kvs "urgent") && cfg.forward_number != "" then
      urgentVerbs cfg else promiseVerbs), ?_, ?_, ?_, ?_⟩
  · simp only [voice_finalize]
    rw [h]
    rfl
  · show pyOrStr (dictGet kvs "callback_phone")
        (if stripOpt callbackV = "" then fromV.getD "" else stripOpt callbackV) = _
    rw [pyOrStr_str_cases _ p _ hp]
    by_cases hc : stripOpt callbackV = "" <;> simp [hc]
  · show pyOrStr (dictGet kvs "name") (stripOpt speechV) = _
    exact pyOrStr_str_cases _ nx _ hn
  · show pyOrStr (dictGet kvs "issue") (stripOpt issueV) = _
    exact pyOrStr_str_cases _ ix _ hi

/-- C8 witness: heuristic extraction leaves name/callback_phone empty, so
the lead falls back to the raw collected values, while message takes the
non-empty extracted issue. -/
theorem lead_field_precedence_witness :
    (openai_extract cfgFwd ClassifierResult.transportError
        (finalTranscript (stripOpt (some "Sam")) (stripOpt (some "5551234"))
          (stripOpt (some "burst")) ((some "+15550001111").getD "")
          ((none : Option String).getD ""))
      = JVal.obj
          [("urgent", JVal.bool true), ("name", JVal.str ""),
           ("callback_phone", JVal.str ""), ("address", JVal.str ""),
           ("issue", JVal.str
             "CallerName: Sam\nCallback: 5551234\nIssue: burst\nFrom: +15550001111\nCallSid: "),
           ("summary", JVal.str
             "CallerName: Sam\nCallback: 5551234\nIssue: burst\nFrom: +15550001111\nCallSid: ")]) ∧
    (∃ lead vs,
      voice_finalize cfgFwd ClassifierResult.transportError 0
          (some "burst") (some "5551234") (some "Sam") none (some "+15550001111")
        = some (lead, vs) ∧
      lead.phone = JVal.str (if ("" : String) ≠ "" then ""
        else if stripOpt (some "5551234") ≠ "" then stripOpt (some "5551234")
        else (some "+15550001111").getD "") ∧
      lead.name = JVal.str (if ("" : String) ≠ "" then "" else stripOpt (some "Sam")) ∧
      lead.message = JVal.str
        (if ("CallerName: Sam\nCallback: 5551234\nIssue: burst\nFrom: +15550001111\nCallSid: "
            : String) ≠ "" then
          "CallerName: Sam\nCallback: 5551234\nIssue: burst\nFrom: +15550001111\nCallSid: "
        else stripOpt (some "burst"))) :=
  ⟨rfl, lead_field_precedence cfgFwd ClassifierResult.transportError 0
    (some "burst") (some "5551234") (some "Sam") none (some "+15550001111")
    [("urgent", JVal.bool true), ("name", JVal.str ""),
     ("callback_phone", JVal.str ""), ("address", JVal.str ""),
     ("issue", JVal.str
       "CallerName: Sam\nCallback: 5551234\nIssue: burst\nFrom: +15550001111\nCallSid: "),
     ("summary", JVal.str
       "CallerName: Sam\nCallback: 5551234\nIssue: burst\nFrom: +15550001111\nCallSid: ")]
    "" ""
    "CallerName: Sam\nCallback: 5551234\nIssue: burst\nFrom: +15550001111\nCallSid: "
    rfl (Or.inl rfl) (Or.inl rfl) (Or.inl rfl)⟩

/-- C10: the terminal turn never validates its own speech input: with the
recognized name empty or absent, the handler still builds the transcript
with an empty CallerName, invokes extraction, produces the lead payload it
posts, and returns a terminal directive — no redirect or gather, and
exactly one of dial/hangup. -/
theorem finalize_accepts_empty_name (cfg : AppConfig) (net : ClassifierResult) (now : Int)
    (issueV callbackV speechV sidV fromV : Option String) (kvs : List (String × JVal))
    (hname : stripOpt speechV = "")
    (h : openai_extract cfg net
        (finalTranscript "" (stripOpt callbackV) (stripOpt issueV)
          (fromV.getD "") (sidV.getD "")) = JVal.obj kvs) :
    finalTranscript (stripOpt speechV) (stripOpt callbackV) (stripOpt issueV)
        (fromV.getD "") (sidV.getD "")
      = finalTranscript "" (stripOpt callbackV) (stripOpt issueV)
        (fromV.getD "") (sidV.getD "") ∧
    ∃ vs, voice_finalize cfg net now issueV callbackV speechV sidV fromV =
        some (mkLead cfg now kvs "" (stripOpt callbackV) (stripOpt issueV)
          (sidV.getD "") (fromV.getD ""), vs) ∧
      countRedirect vs = 0 ∧ countGather vs = 0 ∧ countDial vs + countHangup vs = 1 := by
  refine ⟨by rw [hname],
    (if pyTruthy (dictGet kvs "urgent") && cfg.forward_number != "" then
      urgentVerbs cfg else promiseVerbs), ?_, ?_, ?_, ?_⟩
  · simp only [voice_finalize]
    rw [hname, h]
    rfl
  · by_cases hb : (pyTruthy (dictGet kvs "urgent") && cfg.forward_number != "") = true
    · rw [if_pos hb]; rfl
    · rw [if_neg hb]; rfl
  · by_cases hb : (pyTruthy (dictGet kvs "urgent") && cfg.forward_number != "") = true
    · rw [if_pos hb]; rfl
    · rw [if_neg hb]; rfl
  · by_cases hb : (pyTruthy (dictGet kvs "urgent") && cfg.forward_number != "") = true
    · rw [if_pos hb]; rfl
    · rw [if_neg hb]; rfl

/-- C10 witness: a silent caller at the name turn still yields a lead and a
terminal directive. -/
theorem finalize_accepts_empty_name_witness :
    stripOpt (none : Option String) = "" ∧
    (openai_extract cfgFwd ClassifierResult.transportError
        (finalTranscript "" (stripOpt (some "5551234")) (stripOpt (some "tiny stain"))
          ((none : Option String).getD "") ((none : Option String).getD ""))
      = JVal.obj
          [("urgent", JVal.bool false), ("name", JVal.str ""),
           ("callback_phone", JVal.str ""), ("address", JVal.str ""),
           ("issue", JVal.str
             "CallerName: \nCallback: 5551234\nIssue: tiny stain\nFrom: \nCallSid: "),
           ("summary", JVal.str
             "CallerName: \nCallback: 5551234\nIssue: tiny stain\nFrom: \nCallSid: ")]) ∧
    (finalTranscript (stripOpt (none : Option String)) (stripOpt (some "5551234"))
        (stripOpt (some "tiny stain")) ((none : Option String).getD "")
        ((none : Option String).getD "")
      = finalTranscript "" (stripOpt (some "5551234")) (stripOpt (some "tiny stain"))
        ((none : Option String).getD "") ((none : Option String).getD "") ∧
    ∃ vs, voice_finalize cfgFwd ClassifierResult.transportError 0
        (some "tiny stain") (some "5551234") none none none =
        some (mkLead cfgFwd 0
          [("urgent", JVal.bool false), ("name", JVal.str ""),
           ("callback_phone", JVal.str ""), ("address", JVal.str ""),
           ("issue", JVal.str
             "CallerName: \nCallback: 5551234\nIssue: tiny stain\nFrom: \nCallSid: "),
           ("summary", JVal.str
             "CallerName: \nCallback: 5551234\nIssue: tiny stain\nFrom: \nCallSid: ")]
          "" (stripOpt (some "5551234")) (stripOpt (some "tiny stain"))
          ((none : Option String).getD "") ((none : Option String).getD ""), vs) ∧
      countRedirect vs = 0 ∧ countGather vs = 0 ∧ countDial vs + countHangup vs = 1) :=
  ⟨rfl, rfl, finalize_accepts_empty_name cfgFwd ClassifierResult.transportError 0
    (some "tiny stain") (some "5551234") none none none
    [("urgent", JVal.bool false), ("name", JVal.str ""),
     ("callback_phone", JVal.str ""), ("address", JVal.str ""),
     ("issue", JVal.str
       "CallerName: \nCallback: 5551234\nIssue: tiny stain\nFrom: \nCallSid: "),
     ("summary", JVal.str
       "CallerName: \nCallback: 5551234\nIssue: tiny stain\nFrom: \nCallSid: ")]
    rfl rfl⟩
